import Mathlib

/-!
Verification of the coinbase5trader Python backend (src/server-python).

The development shallowly embeds the request-translation logic of
`main.py` (HTTP proxy: credential resolution, route dispatch, error-status
mapping) and `mcp_server.py` (stdio RPC server: lazy client initialization,
the three operations, and the order builder) as executable Lean functions,
and proves the specification claims about them.

Modelling conventions:
* JSON/Python values are the inductive `Value`; Python dictionaries are
  association lists `List (String × Value)` (insertion order preserved,
  keys unique in all reachable dictionaries).
* Python truthiness is `truthy`; `x or y` on values is `effectiveField`.
* Machine strings are Lean `String` (a `List Char` wrapper); `str.upper` is
  modelled ASCII-faithfully by `strUpper`.
* Python numbers are modelled as integers (`Int`); no claim depends on
  floating-point behaviour.
* The upstream Coinbase SDK client is an external collaborator: its calls
  are an oracle record whose fields give each call result (`Except` for
  success/raised-exception), and client construction failure is an oracle
  flag.  Reflective `__dict__` conversion of SDK results is modelled as the
  oracle returning the already-converted mapping.
-/

namespace CoinbaseTrader

/-- Values of the JSON-ish data model shared by both front ends. -/
inductive Value where
  | vnull : Value
  | vbool : Bool → Value
  | vnum : Int → Value
  | vstr : String → Value
  | vlist : List Value → Value
  | vobj : List (String × Value) → Value

open Value

/-- Dictionaries (Python `dict`) as ordered association lists. -/
abbrev Dict := List (String × Value)

/-- Python truthiness of a value (`bool(v)`). -/
def truthy : Value → Bool
  | vnull => false
  | vbool b => b
  | vnum n => n != 0
  | vstr s => !s.isEmpty
  | vlist l => !l.isEmpty
  | vobj l => !l.isEmpty

/-- First binding of key `k` in a dictionary (`d[k]` / `d.get(k)`). -/
def lookup (m : Dict) (k : String) : Option Value :=
  match m with
  | [] => none
  | (k₁, v) :: rest => if k₁ == k then some v else lookup rest k

/-- Python `d.get(k)`: the value at `k`, or `None` when the key is absent. -/
def getOpt (m : Dict) (k : String) : Value :=
  (lookup m k).getD vnull

/-- Python `k in d`. -/
def hasKey (m : Dict) (k : String) : Bool :=
  (lookup m k).isSome

/-- Python `s.upper()` (ASCII-faithful). -/
def strUpper (s : String) : String :=
  List.asString (s.toList.map Char.toUpper)

/-- Python type name of a value, as it appears in exception messages. -/
def typeName : Value → String
  | vnull => "NoneType"
  | vbool _ => "bool"
  | vnum _ => "int"
  | vstr _ => "str"
  | vlist _ => "list"
  | vobj _ => "dict"

/-- Message of the `AttributeError` raised when calling a missing method
(e.g. `.upper()` on a non-string). -/
def attrMsg (v : Value) (attr : String) : String :=
  "\x27" ++ typeName v ++ "\x27 object has no attribute \x27" ++ attr ++ "\x27"

mutual

/-- Python `repr` of a value (string escaping inside containers is not
modelled; no message the claims touch contains a nested container). -/
def pyRepr : Value → String
  | vnull => "None"
  | vbool true => "True"
  | vbool false => "False"
  | vnum n => toString n
  | vstr s => "\x27" ++ s ++ "\x27"
  | vlist vs => "[" ++ pyReprSeq vs ++ "]"
  | vobj fs => "\x7b" ++ pyReprFields fs ++ "\x7d"

/-- Comma-separated `repr`s of list elements. -/
def pyReprSeq : List Value → String
  | [] => ""
  | [v] => pyRepr v
  | v :: vs => pyRepr v ++ ", " ++ pyReprSeq vs

/-- Comma-separated `repr`s of dictionary entries. -/
def pyReprFields : List (String × Value) → String
  | [] => ""
  | [(k, v)] => "\x27" ++ k ++ "\x27: " ++ pyRepr v
  | (k, v) :: fs => "\x27" ++ k ++ "\x27: " ++ pyRepr v ++ ", " ++ pyReprFields fs

end

/-- Python `str` of a value, as used by f-string interpolation. -/
def pyStr : Value → String
  | vstr s => s
  | v => pyRepr v

/-! List-of-characters string predicates.  Python `str.startswith`,
`str.endswith` and `in` are modelled on `String.toList`, which keeps the
proofs by list induction. -/

/-- Leading-match test on character lists. -/
def isPre : List Char → List Char → Bool
  | [], _ => true
  | _ :: _, [] => false
  | p :: ps, c :: cs => p == c && isPre ps cs

/-- Substring test on character lists (Python `pat in s` for strings). -/
def hasSubL (pat : List Char) : List Char → Bool
  | [] => pat.isEmpty
  | c :: cs => isPre pat (c :: cs) || hasSubL pat cs

/-- Python `pat in s` for strings. -/
def hasSub (pat s : String) : Bool :=
  hasSubL pat.toList s.toList

/-- Python `s.startswith(pre)`. -/
def startsW (p s : String) : Bool :=
  isPre p.toList s.toList

/-- Python `s.endswith(suf)`. -/
def endsW (p s : String) : Bool :=
  isPre p.toList.reverse s.toList.reverse

/-- Python `s.split(sep)` for a one-character separator `/`. -/
def splitSlash : List Char → List (List Char)
  | [] => [[]]
  | c :: rest =>
    if c == '/' then [] :: splitSlash rest
    else
      match splitSlash rest with
      | [] => [[c]]
      | seg :: segs => (c :: seg) :: segs

/-- model of `path.split(\x27/\x27)[-2]` (main.py line 90): the path segment
immediately preceding the final `ticker` segment.  Reachable only when the
path matches the ticker route, where the split has at least two segments. -/
def productIdOf (p : String) : String :=
  let segs := splitSlash p.toList
  List.asString (segs.getD (segs.length - 2) [])

/-! Error-status extraction (main.py lines 164-176). -/

/-- Maximal leading run of decimal digits. -/
def leadingDigits : List Char → List Char
  | [] => []
  | c :: cs => if c.isDigit then c :: leadingDigits cs else []

/-- Numeric value of a list of decimal digits (Python `int` of the digit
string captured by the regex). -/
def natOfDigits (ds : List Char) : Nat :=
  ds.foldl (fun a c => 10 * a + (c.toNat - 48)) 0

/-- model of `re.search(r"error (\d+)", s)`: the number at the leftmost
occurrence of the literal `error ` followed by at least one digit, the digit
run taken maximally. -/
def findErrorCode : List Char → Option Nat
  | [] => none
  | c :: cs =>
    match c :: cs with
    | 'e' :: 'r' :: 'r' :: 'o' :: 'r' :: ' ' :: d :: rest =>
      if d.isDigit then some (natOfDigits (leadingDigits (d :: rest)))
      else findErrorCode cs
    | _ => findErrorCode cs

/-- HTTP status emitted for a normalized error message (main.py lines
166-171): 500 by default; when the message contains the substring
`Coinbase API error`, the first `error NNN` pattern in it supplies NNN. -/
def errorStatusCode (msg : String) : Nat :=
  if hasSub "Coinbase API error" msg then
    match findErrorCode msg.toList with
    | some n => n
    | none => 500
  else 500

/-! HTTP path: `CoinbaseAPIClient.make_request` and the `/proxy` endpoint
(main.py lines 42-186). -/

/-- Oracle for the external Coinbase SDK in the HTTP path: client
construction either fails with a message (`initError`) or succeeds, and each
SDK call either returns a result mapping or raises with a message. -/
structure HttpOracle where
  initError : Option String
  getAccounts : Except String Dict
  getPublicProduct : String → Except String Dict
  createOrder : Value → Except String Dict
  listOrders : Except String Dict

/-- result/exception boundary of an SDK call inside `make_request`
(main.py lines 88-113): a raised exception becomes an error mapping. -/
def wrapCall : Except String Dict → Dict
  | .ok r => r
  | .error e => [("error", vstr e)]

/-- model of `CoinbaseAPIClient.make_request` (main.py lines 68-113).
`get_client` runs before routing, so a client-construction failure is
reported for every path; the four route tests mirror the source `if`
chain, including Python short-circuit evaluation of `method.upper()`
(only reached when the path test of some route passes). -/
def make_request (o : HttpOracle) (method : Value) (path : String)
    (key_name private_key key_id : Value) (payload : Value) : Dict :=
  let _ := (key_name, private_key, key_id)
  match o.initError with
  | some e => [("error", vstr ("Failed to initialize Coinbase client: " ++ e))]
  | none =>
    match method with
    | vstr m =>
      if path == "/api/v3/brokerage/accounts" && strUpper m == "GET" then
        wrapCall o.getAccounts
      else if startsW "/api/v3/brokerage/products/" path && endsW "/ticker" path
          && strUpper m == "GET" then
        wrapCall (o.getPublicProduct (productIdOf path))
      else if path == "/api/v3/brokerage/orders" && strUpper m == "POST" then
        wrapCall (o.createOrder payload)
      else if path == "/api/v3/brokerage/orders" && strUpper m == "GET" then
        wrapCall o.listOrders
      else
        [("error", vstr ("Endpoint " ++ m ++ " " ++ path
          ++ " not yet implemented in Python backend"))]
    | mv =>
      if path == "/api/v3/brokerage/accounts"
          || (startsW "/api/v3/brokerage/products/" path && endsW "/ticker" path)
          || path == "/api/v3/brokerage/orders" then
        [("error", vstr (attrMsg mv "upper"))]
      else
        [("error", vstr ("Endpoint " ++ pyStr mv ++ " " ++ path
          ++ " not yet implemented in Python backend"))]

/-- Process-wide credential defaults from the environment (main.py lines
38-40); `none` models an unset variable. -/
structure Defaults where
  keyName : Option String
  keyId : Option String
  privateKey : Option String

/-- Environment default as a value (`os.getenv` result: `None` or string). -/
def optVal : Option String → Value
  | none => vnull
  | some s => vstr s

/-- Python `x or y`: the per-request value when truthy, else the default
(main.py lines 127-129). -/
def effectiveField (req dflt : Value) : Value :=
  if truthy req then req else dflt

/-- Outcome of the `/proxy` endpoint: a successful body, or an
`HTTPException` with status and detail. -/
inductive ProxyResp where
  | ok : Value → ProxyResp
  | httpError : Nat → Value → ProxyResp

/-- path normalization (main.py lines 148-149): prepend a leading slash
when absent. -/
def normalizePath (p : String) : String :=
  if startsW "/" p then p else "/" ++ p

/-- Python `needle in v` for an arbitrary value: substring test on strings,
membership on lists and dictionaries, `TypeError` otherwise. -/
def pyContains (needle : String) : Value → Except String Bool
  | vstr s => .ok (hasSub needle s)
  | vlist vs => .ok (vs.any fun v => match v with | vstr s => s == needle | _ => false)
  | vobj fs => .ok (fs.any fun kv => kv.1 == needle)
  | v => .error ("argument of type \x27" ++ typeName v ++ "\x27 is not iterable")

/-- error branch of the proxy (main.py lines 164-176): when the result
mapping carries an `error` key, raise an `HTTPException` whose status comes
from `errorStatusCode` and whose detail is the whole result mapping.  A
non-string error value makes the substring test or the regex raise, caught
by the outer handler as a 500. -/
def proxyErrorBranch (result : Dict) : ProxyResp :=
  match lookup result "error" with
  | none => .ok (vobj result)
  | some (vstr msg) => .httpError (errorStatusCode msg) (vobj result)
  | some v =>
    match pyContains "Coinbase API error" v with
    | .error e => .httpError 500 (vstr e)
    | .ok true => .httpError 500 (vstr "expected string or bytes-like object")
    | .ok false => .httpError 500 (vobj result)

/-- model of the `/proxy` endpoint body (main.py lines 118-186) on an
already-parsed JSON body: per-field credential resolution, presence
validation (400), path normalization, dispatch through `make_request`, and
error-status mapping.  The `key_name is None` re-checks of lines 142-145
are unreachable (a `None` field already failed the truthiness check) and
add nothing to the outcome. -/
def proxy_request (d : Defaults) (o : HttpOracle) (body : Dict) : ProxyResp :=
  let key_name := effectiveField (getOpt body "keyName") (optVal d.keyName)
  let key_id := effectiveField (getOpt body "keyId") (optVal d.keyId)
  let private_key := effectiveField (getOpt body "privateKey") (optVal d.privateKey)
  let method := getOpt body "method"
  let path := getOpt body "path"
  let payload := getOpt body "payload"
  if !(truthy key_name && truthy private_key && truthy method && truthy path) then
    .httpError 400 (vstr "Missing required fields: keyName, privateKey, method, path")
  else
    match path with
    | vstr p =>
      let result :=
        make_request o method (normalizePath p) key_name private_key key_id payload
      proxyErrorBranch result
    | pv => .httpError 500 (vstr (attrMsg pv "startswith"))

/-! Stdio/RPC path: `CoinbaseMCPServer` (mcp_server.py lines 28-229). -/

/-- Environment credentials of the stdio server (mcp_server.py lines
24-26); `none` models an unset variable. -/
structure Env where
  keyName : Option String
  keyId : Option String
  privateKey : Option String

/-- Constructed SDK client (`RESTClient(api_key=key_id, api_secret=private_key)`). -/
structure Client where
  apiKey : Option String
  apiSecret : String

/-- Mutable server state: the cached client, or `none` before a successful
initialization. -/
structure ServerState where
  client : Option Client

/-- Oracle for the external SDK in the stdio path: whether the
`RESTClient` constructor raises, and the outcome of each SDK call. -/
structure StdioOracle where
  initRaises : Bool
  getAccounts : Except String Value
  getPublicProduct : Value → Except String Value
  createOrder : Value → Except String Value

/-- Python truthiness of an optional environment string (`not VAR`). -/
def envTruthy : Option String → Bool
  | none => false
  | some s => !s.isEmpty

/-- model of `initialize_client` (mcp_server.py lines 35-54): with a falsy
key name or private key the client is left unset; a constructor exception
is swallowed and also leaves it unset; otherwise the client is cached. -/
def initialize_client (env : Env) (o : StdioOracle) (st : ServerState) : ServerState :=
  if !envTruthy env.keyName || !envTruthy env.privateKey then st
  else if o.initRaises then st
  else { client := some { apiKey := env.keyId, apiSecret := env.privateKey.getD "" } }

/-- lazy-initialization preamble shared by the three operations
(`if not self.client: self.initialize_client(); if not self.client: raise`):
the state after the attempt and the client it yielded, if any. -/
def ensureClient (env : Env) (o : StdioOracle) (st : ServerState) :
    ServerState × Option Client :=
  match st.client with
  | some c => (st, some c)
  | none =>
    let st₁ := initialize_client env o st
    (st₁, st₁.client)

/-- Success response mapping (`{"result": r, "id": params.get("id")}`). -/
def mkOk (r id : Value) : Value :=
  vobj [("result", r), ("id", id)]

/-- Error response mapping (`{"error": msg, "id": params.get("id")}`). -/
def mkErr (msg : String) (id : Value) : Value :=
  vobj [("error", vstr msg), ("id", id)]

/-- Correlation id carried by a response mapping. -/
def respIdOf : Value → Value
  | vobj fs => getOpt fs "id"
  | _ => vnull

/-- model of `get_accounts` (mcp_server.py lines 86-120).  The reflective
`__dict__`/accounts-list conversion is the identity here: the oracle
returns the already-converted mapping. -/
def get_accounts (env : Env) (o : StdioOracle) (st : ServerState)
    (params : Dict) : Value × ServerState :=
  let pid := getOpt params "id"
  match ensureClient env o st with
  | (st₁, none) =>
    (mkErr ("Failed to get accounts: Coinbase client not initialized - check environment variables") pid, st₁)
  | (st₁, some _) =>
    match o.getAccounts with
    | .ok r => (mkOk r pid, st₁)
    | .error e => (mkErr ("Failed to get accounts: " ++ e) pid, st₁)

/-- model of `get_product_ticker` (mcp_server.py lines 122-156). -/
def get_product_ticker (env : Env) (o : StdioOracle) (st : ServerState)
    (params : Dict) : Value × ServerState :=
  let pid := getOpt params "id"
  match ensureClient env o st with
  | (st₁, none) =>
    (mkErr ("Failed to get product ticker: Coinbase client not initialized - check environment variables") pid, st₁)
  | (st₁, some _) =>
    let product_id := getOpt params "product_id"
    if !truthy product_id then
      (mkErr ("Failed to get product ticker: product_id is required") pid, st₁)
    else
      match o.getPublicProduct product_id with
      | .ok r => (mkOk r pid, st₁)
      | .error e => (mkErr ("Failed to get product ticker: " ++ e) pid, st₁)

/-- model of the order-builder core of `place_order` (mcp_server.py lines
168-207): presence validation, uppercase normalization, enum validation,
and construction of the order-configuration mapping.  The parameter `t` is
`int(asyncio.get_event_loop().time())`, the integer monotonic-clock second
at the call.  Errors are the raised `ValueError`/`AttributeError` messages,
before the `Failed to place order: ` framing added by the handler. -/
def buildOrderConfig (t : Nat) (params : Dict) : Except String Dict :=
  if !hasKey params "product_id" then .error "product_id is required"
  else if !hasKey params "side" then .error "side is required"
  else if !hasKey params "type" then .error "type is required"
  else if !hasKey params "amount" then .error "amount is required"
  else
    let product_id := getOpt params "product_id"
    match getOpt params "side" with
    | vstr s =>
      match getOpt params "type" with
      | vstr ty =>
        let side := strUpper s
        let order_type := strUpper ty
        let amount := getOpt params "amount"
        let price := getOpt params "price"
        if !(side == "BUY" || side == "SELL") then
          .error "side must be \x27BUY\x27 or \x27SELL\x27"
        else if !(order_type == "MARKET" || order_type == "LIMIT") then
          .error "type must be \x27MARKET\x27 or \x27LIMIT\x27"
        else
          let base := [("client_order_id", vstr ("order_" ++ Nat.repr t)),
                       ("product_id", product_id),
                       ("side", vstr side)]
          if order_type == "MARKET" then
            .ok (base ++ [("order_configuration",
              vobj [("market_market_ioc", vobj [("quote_size", amount)])])])
          else
            if !truthy price then .error "price is required for limit orders"
            else
              .ok (base ++ [("order_configuration",
                vobj [("limit_limit_gtc",
                  vobj [("base_size", amount), ("limit_price", price)])])])
      | tv => .error (attrMsg tv "upper")
    | sv => .error (attrMsg sv "upper")

/-- model of `place_order` (mcp_server.py lines 158-229): lazy client
initialization, then the order builder, then the SDK `create_order` call;
every failure is framed as `Failed to place order: ...` with the
params-level correlation id. -/
def place_order (env : Env) (o : StdioOracle) (st : ServerState) (t : Nat)
    (params : Dict) : Value × ServerState :=
  let pid := getOpt params "id"
  match ensureClient env o st with
  | (st₁, none) =>
    (mkErr ("Failed to place order: Coinbase client not initialized - check environment variables") pid, st₁)
  | (st₁, some _) =>
    match buildOrderConfig t params with
    | .error m => (mkErr ("Failed to place order: " ++ m) pid, st₁)
    | .ok order_config =>
      match o.createOrder (vobj order_config) with
      | .ok r => (mkOk r pid, st₁)
      | .error e => (mkErr ("Failed to place order: " ++ e) pid, st₁)

/-- Python `v == "lit"` for a value against a string literal. -/
def vEqStr (v : Value) (s : String) : Bool :=
  match v with
  | vstr t => t == s
  | _ => false

/-- Whether an RPC method value names one of the three operations. -/
def recognized (m : Value) : Bool :=
  vEqStr m "coinbase_get_accounts"
  || vEqStr m "coinbase_get_product_ticker"
  || vEqStr m "coinbase_place_order"

/-- model of `handle_request` (mcp_server.py lines 56-84): dispatch on the
method name; an unrecognized method yields a normalized error carrying the
request-level id.  When `params` is present but not a mapping, every path
of the three operations ends in `params.get` raising `AttributeError`,
which the outer handler converts to a top-level error with the
request-level id (the state keeps any lazy initialization that ran first). -/
def handle_request (env : Env) (o : StdioOracle) (st : ServerState) (t : Nat)
    (req : Dict) : Value × ServerState :=
  let m := getOpt req "method"
  let dispatch : Dict → Value × ServerState := fun ps =>
    if vEqStr m "coinbase_get_accounts" then get_accounts env o st ps
    else if vEqStr m "coinbase_get_product_ticker" then get_product_ticker env o st ps
    else if vEqStr m "coinbase_place_order" then place_order env o st t ps
    else (vobj [("error", vstr ("Unknown method: " ++ pyStr m)), ("id", getOpt req "id")], st)
  match lookup req "params" with
  | none => dispatch []
  | some (vobj ps) => dispatch ps
  | some v =>
    if recognized m then
      (vobj [("error", vstr (attrMsg v "get")), ("id", getOpt req "id")],
       (ensureClient env o st).1)
    else
      (vobj [("error", vstr ("Unknown method: " ++ pyStr m)), ("id", getOpt req "id")], st)

/-! Decimal rendering.  The client order token embeds
`int(asyncio.get_event_loop().time())` through `Nat.repr`; the lemmas below
show that rendering is injective, so tokens coincide exactly when the
integer seconds coincide. -/

/-- Decimal digit characters of a natural number, most significant first
(reference rendering used to reason about `Nat.repr`). -/
def decDigits (n : Nat) : List Char :=
  if n < 10 then [Nat.digitChar n]
  else decDigits (n / 10) ++ [Nat.digitChar (n % 10)]
decreasing_by exact Nat.div_lt_self (by omega) (by omega)

theorem toDigitsCore_eq_decDigits (fuel : Nat) :
    ∀ (n : Nat) (acc : List Char), n < fuel →
      Nat.toDigitsCore 10 fuel n acc = decDigits n ++ acc := by
  induction fuel with
  | zero => intro n acc h; omega
  | succ f ih =>
    intro n acc h
    simp only [Nat.toDigitsCore]
    by_cases h10 : n / 10 = 0
    · have hn : n < 10 := by omega
      rw [if_pos h10, decDigits, if_pos hn, Nat.mod_eq_of_lt hn]
      rfl
    · have hn : ¬ n < 10 := by omega
      rw [if_neg h10, ih (n / 10) _ (by omega)]
      conv_rhs => rw [decDigits, if_neg hn]
      rw [List.append_assoc]
      rfl

theorem repr_eq_decDigits (n : Nat) : Nat.repr n = (decDigits n).asString := by
  unfold Nat.repr Nat.toDigits
  rw [toDigitsCore_eq_decDigits (n + 1) n [] (by omega), List.append_nil]

theorem digitChar_toNat_sub (m : Nat) (h : m < 10) :
    (Nat.digitChar m).toNat - 48 = m := by
  interval_cases m <;> rfl

theorem natOfDigits_append_one (l : List Char) (c : Char) :
    natOfDigits (l ++ [c]) = 10 * natOfDigits l + (c.toNat - 48) := by
  simp [natOfDigits, List.foldl_append]

theorem natOfDigits_decDigits (n : Nat) : natOfDigits (decDigits n) = n := by
  induction n using Nat.strong_induction_on with
  | _ n ih =>
    by_cases h : n < 10
    · rw [decDigits, if_pos h]
      interval_cases n <;> rfl
    · rw [decDigits, if_neg h, natOfDigits_append_one,
        ih (n / 10) (Nat.div_lt_self (by omega) (by omega)),
        digitChar_toNat_sub (n % 10) (Nat.mod_lt _ (by omega))]
      omega

theorem repr_injective {a b : Nat} (h : Nat.repr a = Nat.repr b) : a = b := by
  rw [repr_eq_decDigits, repr_eq_decDigits] at h
  have hd : decDigits a = decDigits b := congrArg String.data h
  have := congrArg natOfDigits hd
  rwa [natOfDigits_decDigits, natOfDigits_decDigits] at this

theorem token_injective {a b : Nat}
    (h : "order_" ++ Nat.repr a = "order_" ++ Nat.repr b) : a = b := by
  apply repr_injective
  have hd := congrArg String.data h
  rw [String.data_append, String.data_append] at hd
  exact String.ext (List.append_cancel_left hd)

/-! Helper lemmas about dictionary access. -/

theorem lookup_of_getOpt {m : Dict} {k : String} {v : Value}
    (hk : hasKey m k = true) (hv : getOpt m k = v) : lookup m k = some v := by
  unfold hasKey at hk
  unfold getOpt at hv
  cases h : lookup m k with
  | none => rw [h] at hk; simp at hk
  | some w => rw [h] at hv; simp at hv; rw [hv]

/-- Inversion of the order builder: every successful build has exactly the
four top-level keys, the token derived from `t`, the caller product id, the
uppercased string side, and some order-configuration mapping. -/
theorem buildOrderConfig_ok_shape (t : Nat) (params cfg : Dict)
    (h : buildOrderConfig t params = .ok cfg) :
    ∃ s ocfg, lookup params "side" = some (vstr s)
      ∧ cfg = [("client_order_id", vstr ("order_" ++ Nat.repr t)),
               ("product_id", getOpt params "product_id"),
               ("side", vstr (strUpper s)),
               ("order_configuration", ocfg)] := by
  unfold buildOrderConfig at h
  split at h
  · exact Except.noConfusion h
  split at h
  · exact Except.noConfusion h
  next hside =>
  split at h
  · exact Except.noConfusion h
  split at h
  · exact Except.noConfusion h
  split at h
  case _ s hs =>
    split at h
    case _ ty hty =>
      simp only [] at h
      split at h
      · exact Except.noConfusion h
      split at h
      · exact Except.noConfusion h
      have hls : lookup params "side" = some (vstr s) :=
        lookup_of_getOpt (by revert hside; simp) hs
      split at h
      · injection h with h
        subst h
        exact ⟨s, _, hls, rfl⟩
      · split at h
        · exact Except.noConfusion h
        · injection h with h
          subst h
          exact ⟨s, _, hls, rfl⟩
    case _ tv htv => exact Except.noConfusion h
  case _ sv hsv => exact Except.noConfusion h

/-! Claim theorems. -/

/-- C1: for every order-builder call whose params pass field and enum
validation, a MARKET type builds an order configuration whose
`order_configuration` is the market-ioc mapping carrying only
`quote_size = amount` (any supplied price is ignored: it appears nowhere in
the result); a LIMIT type with a present and truthy price builds the
limit-gtc mapping carrying `base_size = amount` and `limit_price = price`;
and a LIMIT type with an absent or falsy price is the validation error
`price is required for limit orders`, with no configuration built. -/
theorem c1_order_configuration (t : Nat) (params : Dict) (s ty : String)
    (hpid : hasKey params "product_id" = true)
    (hside : lookup params "side" = some (vstr s))
    (htype : lookup params "type" = some (vstr ty))
    (hamt : hasKey params "amount" = true)
    (hs : strUpper s = "BUY" ∨ strUpper s = "SELL")
    (hty : strUpper ty = "MARKET" ∨ strUpper ty = "LIMIT") :
    (strUpper ty = "MARKET" →
      buildOrderConfig t params = .ok
        [("client_order_id", vstr ("order_" ++ Nat.repr t)),
         ("product_id", getOpt params "product_id"),
         ("side", vstr (strUpper s)),
         ("order_configuration",
           vobj [("market_market_ioc", vobj [("quote_size", getOpt params "amount")])])])
    ∧ (strUpper ty = "LIMIT" → truthy (getOpt params "price") = true →
      buildOrderConfig t params = .ok
        [("client_order_id", vstr ("order_" ++ Nat.repr t)),
         ("product_id", getOpt params "product_id"),
         ("side", vstr (strUpper s)),
         ("order_configuration",
           vobj [("limit_limit_gtc",
             vobj [("base_size", getOpt params "amount"),
                   ("limit_price", getOpt params "price")])])])
    ∧ (strUpper ty = "LIMIT" → truthy (getOpt params "price") = false →
      buildOrderConfig t params = .error "price is required for limit orders") := by
  have hks : hasKey params "side" = true := by simp [hasKey, hside]
  have hkt : hasKey params "type" = true := by simp [hasKey, htype]
  have hgs : getOpt params "side" = vstr s := by simp [getOpt, hside]
  have hgt : getOpt params "type" = vstr ty := by simp [getOpt, htype]
  have hsb : (strUpper s == "BUY" || strUpper s == "SELL") = true := by
    rcases hs with h | h <;> simp [h]
  refine ⟨fun hm => ?_, fun hl hp => ?_, fun hl hp => ?_⟩
  · simp [buildOrderConfig, hpid, hks, hkt, hamt, hgs, hgt, hsb, hm]
  · simp [buildOrderConfig, hpid, hks, hkt, hamt, hgs, hgt, hsb, hl, hp]
  · simp [buildOrderConfig, hpid, hks, hkt, hamt, hgs, hgt, hsb, hl, hp]

/-- C1 witness: the spec example, a market buy built from lowercase input,
a price supplied and ignored. -/
theorem c1_witness :
    buildOrderConfig 7
      [("product_id", vstr "BTC-USD"), ("side", vstr "buy"),
       ("type", vstr "market"), ("amount", vnum 50), ("price", vnum 3)]
      = .ok
        [("client_order_id", vstr "order_7"),
         ("product_id", vstr "BTC-USD"),
         ("side", vstr "BUY"),
         ("order_configuration",
           vobj [("market_market_ioc", vobj [("quote_size", vnum 50)])])] := by
  have h := (c1_order_configuration 7
    [("product_id", vstr "BTC-USD"), ("side", vstr "buy"),
     ("type", vstr "market"), ("amount", vnum 50), ("price", vnum 3)]
    "buy" "market" rfl rfl rfl rfl (Or.inl rfl) (Or.inl rfl)).1 rfl
  exact h

/-- C2: with all of product_id, side, type, amount present, side and type
are uppercased before checking; a normalized side outside BUY and SELL, or
a normalized type outside MARKET and LIMIT, is rejected with the validation
error naming the allowed set; lowercase `buy` is accepted as BUY while
`hold` is rejected; and a missing field is a validation error naming the
(first) missing field. -/
theorem c2_field_and_enum_validation (t : Nat) (params : Dict) (s ty : String) :
    (hasKey params "product_id" = false →
      buildOrderConfig t params = .error "product_id is required")
    ∧ (hasKey params "product_id" = true → hasKey params "side" = false →
      buildOrderConfig t params = .error "side is required")
    ∧ (hasKey params "product_id" = true → hasKey params "side" = true →
        hasKey params "type" = false →
      buildOrderConfig t params = .error "type is required")
    ∧ (hasKey params "product_id" = true → hasKey params "side" = true →
        hasKey params "type" = true → hasKey params "amount" = false →
      buildOrderConfig t params = .error "amount is required")
    ∧ (hasKey params "product_id" = true → hasKey params "amount" = true →
        lookup params "side" = some (vstr s) → lookup params "type" = some (vstr ty) →
        strUpper s ≠ "BUY" → strUpper s ≠ "SELL" →
      buildOrderConfig t params = .error "side must be \x27BUY\x27 or \x27SELL\x27")
    ∧ (hasKey params "product_id" = true → hasKey params "amount" = true →
        lookup params "side" = some (vstr s) → lookup params "type" = some (vstr ty) →
        (strUpper s = "BUY" ∨ strUpper s = "SELL") →
        strUpper ty ≠ "MARKET" → strUpper ty ≠ "LIMIT" →
      buildOrderConfig t params = .error "type must be \x27MARKET\x27 or \x27LIMIT\x27")
    ∧ buildOrderConfig t
        [("product_id", vstr "BTC-USD"), ("side", vstr "buy"),
         ("type", vstr "MARKET"), ("amount", vnum 1)]
        = .ok
          [("client_order_id", vstr ("order_" ++ Nat.repr t)),
           ("product_id", vstr "BTC-USD"),
           ("side", vstr "BUY"),
           ("order_configuration",
             vobj [("market_market_ioc", vobj [("quote_size", vnum 1)])])]
    ∧ buildOrderConfig t
        [("product_id", vstr "BTC-USD"), ("side", vstr "hold"),
         ("type", vstr "MARKET"), ("amount", vnum 1)]
        = .error "side must be \x27BUY\x27 or \x27SELL\x27" := by
  refine ⟨fun h1 => ?_, fun h1 h2 => ?_, fun h1 h2 h3 => ?_, fun h1 h2 h3 h4 => ?_,
    ?_, ?_, ?_, ?_⟩
  · simp [buildOrderConfig, h1]
  · simp [buildOrderConfig, h1, h2]
  · simp [buildOrderConfig, h1, h2, h3]
  · simp [buildOrderConfig, h1, h2, h3, h4]
  · intro h1 h4 hside htype hb hsl
    have hks : hasKey params "side" = true := by simp [hasKey, hside]
    have hkt : hasKey params "type" = true := by simp [hasKey, htype]
    have hgs : getOpt params "side" = vstr s := by simp [getOpt, hside]
    have hgt : getOpt params "type" = vstr ty := by simp [getOpt, htype]
    simp [buildOrderConfig, h1, hks, hkt, h4, hgs, hgt, hb, hsl]
  · intro h1 h4 hside htype hok hm hlim
    have hks : hasKey params "side" = true := by simp [hasKey, hside]
    have hkt : hasKey params "type" = true := by simp [hasKey, htype]
    have hgs : getOpt params "side" = vstr s := by simp [getOpt, hside]
    have hgt : getOpt params "type" = vstr ty := by simp [getOpt, htype]
    have hsb : (strUpper s == "BUY" || strUpper s == "SELL") = true := by
      rcases hok with h | h <;> simp [h]
    simp [buildOrderConfig, h1, hks, hkt, h4, hgs, hgt, hsb, hm, hlim]
  · simp [buildOrderConfig, hasKey, lookup, getOpt,
      show strUpper "buy" = "BUY" from rfl, show strUpper "MARKET" = "MARKET" from rfl]
  · simp [buildOrderConfig, hasKey, lookup, getOpt,
      show strUpper "hold" = "HOLD" from rfl]

/-- C2 witness: a call missing only `amount` yields the error naming it. -/
theorem c2_witness :
    buildOrderConfig 3
      [("product_id", vstr "BTC-USD"), ("side", vstr "buy"), ("type", vstr "MARKET")]
      = .error "amount is required" := by
  have h := (c2_field_and_enum_validation 3
    [("product_id", vstr "BTC-USD"), ("side", vstr "buy"), ("type", vstr "MARKET")]
    "buy" "MARKET").2.2.2.1 rfl rfl rfl rfl
  exact h

/-- C10: every successfully built order configuration, in both the MARKET
and the LIMIT variant, has exactly the top-level keys `client_order_id`,
`product_id`, `side` and `order_configuration`, in that order, and its
`side` entry is the uppercased input side. -/
theorem c10_top_level_keys (t : Nat) (params cfg : Dict)
    (h : buildOrderConfig t params = .ok cfg) :
    cfg.map Prod.fst = ["client_order_id", "product_id", "side", "order_configuration"]
    ∧ ∃ s, lookup params "side" = some (vstr s)
        ∧ lookup cfg "side" = some (vstr (strUpper s)) := by
  obtain ⟨s, ocfg, hls, rfl⟩ := buildOrderConfig_ok_shape t params cfg h
  exact ⟨rfl, s, hls, rfl⟩

/-- C10 witness: the limit variant of the spec example has exactly the four
top-level keys and the uppercased side. -/
theorem c10_witness :
    ([("client_order_id", vstr "order_7"),
      ("product_id", vstr "BTC-USD"),
      ("side", vstr "SELL"),
      ("order_configuration",
        vobj [("limit_limit_gtc",
          vobj [("base_size", vnum 1), ("limit_price", vnum 100)])])] : Dict).map Prod.fst
      = ["client_order_id", "product_id", "side", "order_configuration"]
    ∧ ∃ s, lookup [("product_id", vstr "BTC-USD"), ("side", vstr "sell"),
          ("type", vstr "LIMIT"), ("amount", vnum 1), ("price", vnum 100)] "side"
          = some (vstr s)
        ∧ lookup [("client_order_id", vstr "order_7"),
            ("product_id", vstr "BTC-USD"),
            ("side", vstr "SELL"),
            ("order_configuration",
              vobj [("limit_limit_gtc",
                vobj [("base_size", vnum 1), ("limit_price", vnum 100)])])] "side"
          = some (vstr (strUpper s)) :=
  c10_top_level_keys 7
    [("product_id", vstr "BTC-USD"), ("side", vstr "sell"),
     ("type", vstr "LIMIT"), ("amount", vnum 1), ("price", vnum 100)] _ rfl

/-- C8 counterexample: two distinct order-builder calls (different params)
whose integer monotonic-clock second is the same 1000 both receive the
token `order_1000` - the generated client order ids are not distinct. -/
theorem c8_counterexample :
    buildOrderConfig 1000
        [("product_id", vstr "BTC-USD"), ("side", vstr "BUY"),
         ("type", vstr "MARKET"), ("amount", vnum 50)]
      = .ok
        [("client_order_id", vstr "order_1000"),
         ("product_id", vstr "BTC-USD"),
         ("side", vstr "BUY"),
         ("order_configuration",
           vobj [("market_market_ioc", vobj [("quote_size", vnum 50)])])]
    ∧ buildOrderConfig 1000
        [("product_id", vstr "ETH-USD"), ("side", vstr "SELL"),
         ("type", vstr "MARKET"), ("amount", vnum 75)]
      = .ok
        [("client_order_id", vstr "order_1000"),
         ("product_id", vstr "ETH-USD"),
         ("side", vstr "SELL"),
         ("order_configuration",
           vobj [("market_market_ioc", vobj [("quote_size", vnum 75)])])]
    ∧ ([("product_id", vstr "BTC-USD"), ("side", vstr "BUY"),
        ("type", vstr "MARKET"), ("amount", vnum 50)] : Dict)
      ≠ [("product_id", vstr "ETH-USD"), ("side", vstr "SELL"),
         ("type", vstr "MARKET"), ("amount", vnum 75)] := by
  refine ⟨rfl, rfl, ?_⟩
  intro h
  simp at h

/-- C8 amended: the client order token of a successful build is exactly
`order_` followed by the decimal integer monotonic-clock second of the
call, so two builds carry equal tokens exactly when their integer seconds
are equal: calls in the same second collide, calls in different seconds get
distinct tokens. -/
theorem c8_amended_token (t₁ t₂ : Nat) (p₁ p₂ cfg₁ cfg₂ : Dict)
    (h₁ : buildOrderConfig t₁ p₁ = .ok cfg₁)
    (h₂ : buildOrderConfig t₂ p₂ = .ok cfg₂) :
    lookup cfg₁ "client_order_id" = some (vstr ("order_" ++ Nat.repr t₁))
    ∧ (lookup cfg₁ "client_order_id" = lookup cfg₂ "client_order_id" ↔ t₁ = t₂) := by
  obtain ⟨s₁, o₁, -, rfl⟩ := buildOrderConfig_ok_shape t₁ p₁ cfg₁ h₁
  obtain ⟨s₂, o₂, -, rfl⟩ := buildOrderConfig_ok_shape t₂ p₂ cfg₂ h₂
  refine ⟨rfl, fun h => ?_, fun h => by rw [h]; simp [lookup]⟩
  have h' : "order_" ++ Nat.repr t₁ = "order_" ++ Nat.repr t₂ := by
    simpa [lookup] using h
  exact token_injective h'

/-- C8 amended witness: builds at integer seconds 5 and 6 carry the tokens
`order_5` and `order_6`, equal only if 5 = 6. -/
theorem c8_amended_witness :
    lookup [("client_order_id", vstr "order_5"),
            ("product_id", vstr "BTC-USD"),
            ("side", vstr "BUY"),
            ("order_configuration",
              vobj [("market_market_ioc", vobj [("quote_size", vnum 50)])])]
        "client_order_id" = some (vstr ("order_" ++ Nat.repr 5))
    ∧ (lookup [("client_order_id", vstr "order_5"),
              ("product_id", vstr "BTC-USD"),
              ("side", vstr "BUY"),
              ("order_configuration",
                vobj [("market_market_ioc", vobj [("quote_size", vnum 50)])])]
          "client_order_id"
        = lookup [("client_order_id", vstr "order_6"),
              ("product_id", vstr "BTC-USD"),
              ("side", vstr "BUY"),
              ("order_configuration",
                vobj [("market_market_ioc", vobj [("quote_size", vnum 50)])])]
          "client_order_id"
        ↔ 5 = 6) :=
  c8_amended_token 5 6
    [("product_id", vstr "BTC-USD"), ("side", vstr "BUY"),
     ("type", vstr "MARKET"), ("amount", vnum 50)]
    [("product_id", vstr "BTC-USD"), ("side", vstr "BUY"),
     ("type", vstr "MARKET"), ("amount", vnum 50)]
    _ _ rfl rfl

/-- C9: in the stdio path each of the three operations attempts lazy client
initialization before any parameter validation: with the client unset and
the environment credentials absent (falsy key name or private key), every
call returns the client-not-initialized error, whatever the params. -/
theorem c9_init_before_validation (env : Env) (o : StdioOracle) (params : Dict)
    (t : Nat)
    (h : envTruthy env.keyName = false ∨ envTruthy env.privateKey = false) :
    (get_accounts env o ⟨none⟩ params).1
      = mkErr "Failed to get accounts: Coinbase client not initialized - check environment variables"
          (getOpt params "id")
    ∧ (get_product_ticker env o ⟨none⟩ params).1
      = mkErr "Failed to get product ticker: Coinbase client not initialized - check environment variables"
          (getOpt params "id")
    ∧ (place_order env o ⟨none⟩ t params).1
      = mkErr "Failed to place order: Coinbase client not initialized - check environment variables"
          (getOpt params "id") := by
  have hic : initialize_client env o ⟨none⟩ = ⟨none⟩ := by
    unfold initialize_client
    rcases h with h | h <;> simp [h]
  have hec : ensureClient env o ⟨none⟩ = (⟨none⟩, none) := by
    simp [ensureClient, hic]
  exact ⟨by simp [get_accounts, hec], by simp [get_product_ticker, hec],
    by simp [place_order, hec]⟩

/-- C9 witness: with no environment credentials, a `place_order` call whose
params are empty (missing every required field) still reports the
client-not-initialized error, not a validation error. -/
theorem c9_witness :
    (place_order ⟨none, none, none⟩
        ⟨false, .ok vnull, fun _ => .ok vnull, fun _ => .ok vnull⟩ ⟨none⟩ 0 []).1
      = mkErr "Failed to place order: Coinbase client not initialized - check environment variables"
          (getOpt [] "id") :=
  (c9_init_before_validation ⟨none, none, none⟩
    ⟨false, .ok vnull, fun _ => .ok vnull, fun _ => .ok vnull⟩ [] 0
    (Or.inl rfl)).2.2

/-- C6 counterexample: a recognized-operation request that supplies a
top-level correlation id 7 (and no params id) gets a response whose id is
null - the caller-supplied id is present but not echoed. -/
theorem c6_counterexample :
    handle_request ⟨none, none, none⟩
        ⟨false, .ok vnull, fun _ => .ok vnull, fun _ => .ok vnull⟩ ⟨none⟩ 0
        [("method", vstr "coinbase_get_accounts"), ("id", vnum 7)]
      = (vobj [("error",
            vstr "Failed to get accounts: Coinbase client not initialized - check environment variables"),
          ("id", vnull)], ⟨none⟩)
    ∧ getOpt [("method", vstr "coinbase_get_accounts"), ("id", vnum 7)] "id" = vnum 7
    ∧ vnull ≠ vnum 7 := by
  refine ⟨rfl, rfl, ?_⟩
  intro h
  exact Value.noConfusion h

/-- C6 amended: the echoed correlation id is branch-dependent: an
unrecognized method (with well-formed params) echoes the request-level id
unchanged in a normalized error, while each of the three recognized
operations takes the response id from the params-level `id` field (null
when absent), ignoring any request-level id. -/
theorem c6_amended_id_echo (env : Env) (o : StdioOracle) (st : ServerState)
    (t : Nat) (req ps : Dict)
    (hps : lookup req "params" = some (vobj ps)
      ∨ (lookup req "params" = none ∧ ps = [])) :
    (recognized (getOpt req "method") = false →
      handle_request env o st t req
        = (vobj [("error", vstr ("Unknown method: " ++ pyStr (getOpt req "method"))),
                 ("id", getOpt req "id")], st))
    ∧ (recognized (getOpt req "method") = true →
      respIdOf (handle_request env o st t req).1 = getOpt ps "id") := by
  have hacc : ∀ st₀, respIdOf (get_accounts env o st₀ ps).1 = getOpt ps "id" := by
    intro st₀
    unfold get_accounts
    simp only []
    split
    · rfl
    · split <;> rfl
  have htick : ∀ st₀, respIdOf (get_product_ticker env o st₀ ps).1 = getOpt ps "id" := by
    intro st₀
    unfold get_product_ticker
    simp only []
    split
    · rfl
    · split
      · rfl
      · split <;> rfl
  have hord : ∀ st₀, respIdOf (place_order env o st₀ t ps).1 = getOpt ps "id" := by
    intro st₀
    unfold place_order
    simp only []
    split
    · rfl
    · split
      · rfl
      · split <;> rfl
  constructor
  · intro hrec
    simp only [recognized, Bool.or_eq_false_iff] at hrec
    obtain ⟨⟨h1, h2⟩, h3⟩ := hrec
    rcases hps with hps | ⟨hps, rfl⟩ <;> simp [handle_request, hps, h1, h2, h3]
  · intro hrec
    rcases hps with hps | ⟨hps, rfl⟩ <;>
    · unfold handle_request
      rw [hps]
      simp only []
      cases h1 : vEqStr (getOpt req "method") "coinbase_get_accounts" with
      | true => simpa [h1] using hacc st
      | false =>
        cases h2 : vEqStr (getOpt req "method") "coinbase_get_product_ticker" with
        | true => simpa [h1, h2] using htick st
        | false =>
          cases h3 : vEqStr (getOpt req "method") "coinbase_place_order" with
          | true => simpa [h1, h2, h3] using hord st
          | false => exact absurd hrec (by simp [recognized, h1, h2, h3])

/-- C6 amended witness: an unrecognized method `foo` echoes the top-level
id 9 unchanged, even though the params carry a different id. -/
theorem c6_amended_witness :
    handle_request ⟨none, none, none⟩
        ⟨false, .ok vnull, fun _ => .ok vnull, fun _ => .ok vnull⟩ ⟨none⟩ 0
        [("method", vstr "foo"), ("id", vnum 9), ("params", vobj [("id", vnum 4)])]
      = (vobj [("error", vstr "Unknown method: foo"), ("id", vnum 9)], ⟨none⟩) :=
  (c6_amended_id_echo ⟨none, none, none⟩
    ⟨false, .ok vnull, fun _ => .ok vnull, fun _ => .ok vnull⟩ ⟨none⟩ 0
    [("method", vstr "foo"), ("id", vnum 9), ("params", vobj [("id", vnum 4)])]
    [("id", vnum 4)] (Or.inl rfl)).1 rfl

/-- C3: the effective credential set prefers the truthy per-request value
over the default for keyName, keyId and privateKey independently (each
field resolved on its own, falling back to its own default when the
request value is absent or falsy), and the proxy returns HTTP 400 whenever
the resolved key name or private key, or the request method or path, is
still absent (falsy) after this resolution. -/
theorem c3_credential_resolution (d : Defaults) (o : HttpOracle) (body : Dict) :
    (truthy (getOpt body "keyName") = true →
      effectiveField (getOpt body "keyName") (optVal d.keyName) = getOpt body "keyName")
    ∧ (truthy (getOpt body "keyName") = false →
      effectiveField (getOpt body "keyName") (optVal d.keyName) = optVal d.keyName)
    ∧ (truthy (getOpt body "keyId") = true →
      effectiveField (getOpt body "keyId") (optVal d.keyId) = getOpt body "keyId")
    ∧ (truthy (getOpt body "keyId") = false →
      effectiveField (getOpt body "keyId") (optVal d.keyId) = optVal d.keyId)
    ∧ (truthy (getOpt body "privateKey") = true →
      effectiveField (getOpt body "privateKey") (optVal d.privateKey)
        = getOpt body "privateKey")
    ∧ (truthy (getOpt body "privateKey") = false →
      effectiveField (getOpt body "privateKey") (optVal d.privateKey)
        = optVal d.privateKey)
    ∧ (truthy (effectiveField (getOpt body "keyName") (optVal d.keyName)) = false
        ∨ truthy (effectiveField (getOpt body "privateKey") (optVal d.privateKey)) = false
        ∨ truthy (getOpt body "method") = false
        ∨ truthy (getOpt body "path") = false →
      proxy_request d o body
        = .httpError 400 (vstr "Missing required fields: keyName, privateKey, method, path")) := by
  refine ⟨fun h => by simp [effectiveField, h], fun h => by simp [effectiveField, h],
    fun h => by simp [effectiveField, h], fun h => by simp [effectiveField, h],
    fun h => by simp [effectiveField, h], fun h => by simp [effectiveField, h],
    fun h => ?_⟩
  unfold proxy_request
  simp only []
  rcases h with h | h | h | h <;> simp [h]

/-- C3 witness: with a per-request key name, no per-request private key and
no default private key, the proxy rejects the request with 400. -/
theorem c3_witness :
    proxy_request ⟨some "dflt", none, none⟩
        ⟨none, .ok [], fun _ => .ok [], fun _ => .ok [], .ok []⟩
        [("keyName", vstr "req-key"), ("method", vstr "GET"), ("path", vstr "/x")]
      = .httpError 400 (vstr "Missing required fields: keyName, privateKey, method, path") :=
  (c3_credential_resolution ⟨some "dflt", none, none⟩
    ⟨none, .ok [], fun _ => .ok [], fun _ => .ok [], .ok []⟩
    [("keyName", vstr "req-key"), ("method", vstr "GET"), ("path", vstr "/x")]).2.2.2.2.2.2
    (Or.inr (Or.inl rfl))

/-- C4: every (method, path) pair that matches none of the four fixed
routes (with a successfully constructed client) yields the normalized
not-implemented error naming the unmatched method and path - a total,
non-raising outcome of `make_request`. -/
theorem c4_unmatched_routes (o : HttpOracle) (m p : String)
    (kn pk ki payload : Value)
    (hinit : o.initError = none)
    (h1 : (p == "/api/v3/brokerage/accounts" && strUpper m == "GET") = false)
    (h2 : (startsW "/api/v3/brokerage/products/" p && endsW "/ticker" p
        && strUpper m == "GET") = false)
    (h3 : (p == "/api/v3/brokerage/orders" && strUpper m == "POST") = false)
    (h4 : (p == "/api/v3/brokerage/orders" && strUpper m == "GET") = false) :
    make_request o (vstr m) p kn pk ki payload
      = [("error", vstr ("Endpoint " ++ m ++ " " ++ p
          ++ " not yet implemented in Python backend"))] := by
  unfold make_request
  rw [hinit]
  simp only [h1, h2, h3, h4, Bool.false_eq_true, if_false]

/-- C4 witness: `DELETE /foo` matches no route and is answered with the
not-implemented error naming it. -/
theorem c4_witness :
    make_request ⟨none, .ok [], fun _ => .ok [], fun _ => .ok [], .ok []⟩
        (vstr "DELETE") "/foo" vnull vnull vnull vnull
      = [("error", vstr "Endpoint DELETE /foo not yet implemented in Python backend")] :=
  c4_unmatched_routes ⟨none, .ok [], fun _ => .ok [], fun _ => .ok [], .ok []⟩
    "DELETE" "/foo" vnull vnull vnull vnull rfl rfl rfl rfl rfl

/-- C5 counterexample: the normalized error `Failed to initialize Coinbase
client: connection error 404` returned to the proxy contains the pattern
`error 404`, yet the emitted status is 500, not 404: the pattern is only
honoured when the message also contains `Coinbase API error`. -/
theorem c5_counterexample :
    findErrorCode ("Failed to initialize Coinbase client: connection error 404").toList
      = some 404
    ∧ errorStatusCode "Failed to initialize Coinbase client: connection error 404" = 500
    ∧ proxy_request ⟨none, none, none⟩
        ⟨some "connection error 404", .ok [], fun _ => .ok [], fun _ => .ok [], .ok []⟩
        [("keyName", vstr "k"), ("privateKey", vstr "p"),
         ("method", vstr "GET"), ("path", vstr "/x")]
      = .httpError 500
          (vobj [("error",
            vstr "Failed to initialize Coinbase client: connection error 404")])
    ∧ (500 : Nat) ≠ 404 := by
  refine ⟨?_, rfl, rfl, by decide⟩
  decide

/-- C5 amended: the status emitted for a normalized error is 500 by
default; the `error NNN` pattern overrides it only when the message also
contains the marker `Coinbase API error`, in which case the first such NNN
is emitted. -/
theorem c5_amended_status (msg : String) (n : Nat) :
    (hasSub "Coinbase API error" msg = false → errorStatusCode msg = 500)
    ∧ (hasSub "Coinbase API error" msg = true → findErrorCode msg.toList = none →
      errorStatusCode msg = 500)
    ∧ (hasSub "Coinbase API error" msg = true → findErrorCode msg.toList = some n →
      errorStatusCode msg = n) := by
  refine ⟨fun h => by simp [errorStatusCode, h], fun h h2 => ?_, fun h h2 => ?_⟩
  · have h2' : findErrorCode msg.data = none := h2
    simp [errorStatusCode, h, h2']
  · have h2' : findErrorCode msg.data = some n := h2
    simp [errorStatusCode, h, h2']

/-- C5 amended witness: an upstream message carrying the marker and the
pattern propagates its status 401. -/
theorem c5_amended_witness :
    errorStatusCode "Coinbase API error 401: Unauthorized" = 401 :=
  (c5_amended_status "Coinbase API error 401: Unauthorized" 401).2.2 rfl rfl

/-- C7: a caller-supplied path lacking a leading slash is normalized by
prepending one, so it is dispatched to the same operation, with the same
extracted product id and the same result, as the slash-prefixed path. -/
theorem c7_leading_slash (o : HttpOracle) (m : Value) (p : String)
    (kn pk ki payload : Value)
    (h : startsW "/" p = false) :
    normalizePath p = "/" ++ p
    ∧ make_request o m (normalizePath p) kn pk ki payload
      = make_request o m (normalizePath ("/" ++ p)) kn pk ki payload
    ∧ productIdOf (normalizePath p) = productIdOf (normalizePath ("/" ++ p)) := by
  have hs : startsW "/" ("/" ++ p) = true := by
    cases p with
    | mk data => rfl
  have h1 : normalizePath p = "/" ++ p := by simp [normalizePath, h]
  have h2 : normalizePath ("/" ++ p) = "/" ++ p := by simp [normalizePath, hs]
  rw [h1, h2]
  exact ⟨rfl, rfl, rfl⟩

/-- C7 witness: `api/v3/brokerage/products/BTC-USD/ticker` routes exactly
like `/api/v3/brokerage/products/BTC-USD/ticker`. -/
theorem c7_witness :
    normalizePath "api/v3/brokerage/products/BTC-USD/ticker"
      = "/" ++ "api/v3/brokerage/products/BTC-USD/ticker"
    ∧ make_request ⟨none, .ok [], fun _ => .ok [], fun _ => .ok [], .ok []⟩
        (vstr "GET") (normalizePath "api/v3/brokerage/products/BTC-USD/ticker")
        vnull vnull vnull vnull
      = make_request ⟨none, .ok [], fun _ => .ok [], fun _ => .ok [], .ok []⟩
        (vstr "GET")
        (normalizePath ("/" ++ "api/v3/brokerage/products/BTC-USD/ticker"))
        vnull vnull vnull vnull
    ∧ productIdOf (normalizePath "api/v3/brokerage/products/BTC-USD/ticker")
      = productIdOf (normalizePath ("/" ++ "api/v3/brokerage/products/BTC-USD/ticker")) :=
  c7_leading_slash ⟨none, .ok [], fun _ => .ok [], fun _ => .ok [], .ok []⟩
    (vstr "GET") "api/v3/brokerage/products/BTC-USD/ticker"
    vnull vnull vnull vnull rfl

end CoinbaseTrader
